import Mathlib

/-!
Shallow embedding of src/src/extension.ts of the vitest-vscode extension.

The file models `activate`, `registerWatchHandler`, `registerRunHandler` and
the handler closures they install as pure functions.  Host inputs that the
code reads (workspace folders, configuration, the result of the version
probe, visible editors) are collected in an `Env` record; the observable
outcome of activation (registered commands, run profiles, event listeners,
messages shown, log lines) is an `ActivationResult` record.  Handler bodies
are modelled as pure functions from their inputs to a list of `Call`s into
the collaborating modules (discoverer, watcher, run/debug handlers), which
are external to the one source file and therefore appear only as opaque
call constructors.
-/

namespace VitestExt

/-- A command line, as built by getVitestCommand / stringToCmd:
an executable name and its arguments. -/
structure Cmd where
  cmd : String
  args : List String
deriving DecidableEq, Repr

/-- A semantic version, as probed from the runner by getVitestVersion. -/
structure Version where
  major : Nat
  minor : Nat
  patch : Nat
deriving DecidableEq, Repr

/-- The comparison semver.gte(v, "0.8.0") at extension.ts line 74:
true iff v is at least 0.8.0. -/
def semverGte080 (v : Version) : Bool :=
  decide (1 ≤ v.major ∨ 8 ≤ v.minor)

/-- The default command at extension.ts lines 53-56, used when
getVitestCommand returns null. -/
def npxVitest : Cmd :=
  { cmd := "npx", args := ["vitest"] }

/-- Modelled from the spec: stringToCmd (src/pure/utils, not under src/)
turns a configured command line string into a command and argument list. -/
def stringToCmd (s : String) : Cmd :=
  match s.splitOn " " with
  | [] => { cmd := "", args := [] }
  | c :: rest => { cmd := c, args := rest }

/-- JavaScript truthiness of the optional commandLine setting: an absent or
empty string is falsy (extension.ts lines 73-74). -/
def optStrTruthy : Option String → Bool
  | none => false
  | some s => !(s == "")

/-- The reactive state of the TestWatcher observed by the status bar
(extension.ts lines 137-149).  The watch module is not under src/, so
testStatus is modelled as the rendered status text. -/
structure WatcherState where
  isRunning : Bool
  isWatching : Bool
  testStatus : String
deriving DecidableEq, Repr

/-- The mode the StatusBarItem is put into by the effect at extension.ts
lines 137-149, one constructor per method called on it. -/
inductive StatusBarMode
  | runningMode
  | watchMode (testStatus : String)
  | defaultMode
deriving DecidableEq, Repr

/-- The body of the reactive effect at extension.ts lines 137-149: running
mode wins, then watch mode rendering testStatus, else default mode. -/
def statusBarEffect (s : WatcherState) : StatusBarMode :=
  if s.isRunning then
    StatusBarMode.runningMode
  else if s.isWatching then
    StatusBarMode.watchMode s.testStatus
  else
    StatusBarMode.defaultMode

/-- Modelled from the spec: the kinds of data the TestData module (not under
src/) associates to UI tree items; the resolve handler only distinguishes
whether the data is a TestFile. -/
inductive TestData
  | file
  | describe
  | testCase
deriving DecidableEq, Repr

/-- A UI tree item together with WEAKMAP_TEST_DATA.get(item), which can be
undefined (extension.ts line 45). -/
structure TestItem where
  data : Option TestData
deriving DecidableEq, Repr

/-- An invocation of one of the collaborating modules (discoverer, watcher,
one-shot run/debug handlers, editor message boxes); these modules are not
under src/, so their calls are opaque. -/
inductive Call
  | discoverTestFromDoc (doc : String)
  | discoverAllTestFilesInWorkspace
  | watchAllTestFilesInWorkspace
  | updateFromDisk
  | watcherWatch
  | watcherRunTests (included : Option (List String))
  | oneShotRun (included : Option (List String))
  | oneShotDebug
  | updateSnapshotCall
  | showWarningCall (msg : String)
  | startWatchingCall
  | stopWatchingCall
  | toggleWatchingCall
  | statusBarUpdate (mode : StatusBarMode)
deriving DecidableEq, Repr

/-- The refresh handler installed at extension.ts lines 32-34: it discovers
all test files in the workspace. -/
def refreshHandler : List Call :=
  [Call.discoverAllTestFilesInWorkspace]

/-- The resolve handler installed at extension.ts lines 36-49: with no item
it discovers and watches all test files; with an item whose data is a
TestFile it updates that file from disk; otherwise it does nothing. -/
def resolveHandler (item : Option TestItem) : List Call :=
  match item with
  | none => [Call.watchAllTestFilesInWorkspace]
  | some it =>
    match it.data with
    | some TestData.file => [Call.updateFromDisk]
    | _ => []

/-- A run request as seen by the handlers: request.include modelled by the
ids of the included test items, undefined meaning all tests. -/
structure TestRunRequest where
  included : Option (List String)
deriving DecidableEq, Repr

/-- The runHandler nested in registerWatchHandler (extension.ts lines
187-199): with no workspace folder it returns at once; otherwise it awaits
testWatcher.watch() and then calls testWatcher.runTests(request.include). -/
def runHandler (workspaceFolders : List String) (request : TestRunRequest) : List Call :=
  if workspaceFolders.isEmpty then
    []
  else
    [Call.watcherWatch, Call.watcherRunTests request.included]

/-- Modelled from the spec: the command identifiers of the Command module
(not under src/): start/stop/toggle watching and update snapshot. -/
inductive Command
  | startWatching
  | stopWatching
  | toggleWatching
  | updateSnapshot
deriving DecidableEq, BEq, Repr

/-- The behaviour of a callback passed to registerCommand in extension.ts. -/
inductive CmdAction
  | showWarning (msg : String)
  | updateSnapshot
  | startWatching
  | stopWatching
  | toggleWatching
deriving DecidableEq, Repr

/-- A command registration: the command id and the behaviour of its
callback. -/
structure RegisteredCommand where
  id : Command
  action : CmdAction
deriving DecidableEq, Repr

/-- What a registered command callback does when invoked (extension.ts lines
84-97 and 170-177). -/
def cmdActionCalls : CmdAction → List Call
  | CmdAction.showWarning m => [Call.showWarningCall m]
  | CmdAction.updateSnapshot => [Call.updateSnapshotCall]
  | CmdAction.startWatching => [Call.startWatchingCall]
  | CmdAction.stopWatching => [Call.stopWatchingCall]
  | CmdAction.toggleWatching => [Call.toggleWatchingCall]

/-- The kind argument of createRunProfile. -/
inductive ProfileKind
  | run
  | debug
deriving DecidableEq, Repr

/-- The handler a run profile was created with: the watch-mode runHandler
nested in registerWatchHandler, the one-shot runHandler bound to the
controller and the (possibly absent) watcher, or the one-shot debugHandler
bound to the controller. -/
inductive ProfileHandler
  | watchRunHandler
  | boundRunHandler (hasWatcher : Bool)
  | boundDebugHandler
deriving DecidableEq, Repr

/-- A run profile created by createRunProfile: label, kind, handler and the
isDefault flag. -/
structure RunProfile where
  label : String
  kind : ProfileKind
  handler : ProfileHandler
  isDefault : Bool
deriving DecidableEq, Repr

/-- Dispatch of a run request to the handler a profile was created with.
The one-shot handlers live in src/runHandler (not under src/), so their
execution is a single opaque call. -/
def runProfileSemantics (h : ProfileHandler) (folders : List String)
    (req : TestRunRequest) : List Call :=
  match h with
  | ProfileHandler.watchRunHandler => runHandler folders req
  | ProfileHandler.boundRunHandler _ => [Call.oneShotRun req.included]
  | ProfileHandler.boundDebugHandler => [Call.oneShotDebug]

/-- The outcome of registerWatchHandler (extension.ts lines 126-202): whether
a TestWatcher and status bar were created, the command the watcher runs,
and the commands and profiles registered. -/
structure WatchReg where
  watcherCreated : Bool
  watchCmd : Option Cmd
  statusBarCreated : Bool
  commands : List RegisteredCommand
  profiles : List RunProfile
deriving DecidableEq, Repr

/-- registerWatchHandler (extension.ts lines 126-202): with a null command it
returns undefined at once; otherwise it creates a TestWatcher on that
command, creates the status bar, registers the start/stop/toggle watching
commands and the non-default watch-mode run profile. -/
def registerWatchHandler (vitestCmd : Option Cmd) : WatchReg :=
  match vitestCmd with
  | none =>
    { watcherCreated := false, watchCmd := none, statusBarCreated := false,
      commands := [], profiles := [] }
  | some c =>
    { watcherCreated := true, watchCmd := some c, statusBarCreated := true,
      commands :=
        [{ id := Command.startWatching, action := CmdAction.startWatching },
         { id := Command.stopWatching, action := CmdAction.stopWatching },
         { id := Command.toggleWatching, action := CmdAction.toggleWatching }],
      profiles :=
        [{ label := "Run Tests (Watch Mode)", kind := ProfileKind.run,
           handler := ProfileHandler.watchRunHandler, isDefault := false }] }

/-- registerRunHandler (extension.ts lines 204-221): two default profiles,
the one-shot run handler bound to the controller and watcher, and the
one-shot debug handler bound to the controller. -/
def registerRunHandler (hasWatcher : Bool) : List RunProfile :=
  [{ label := "Run Tests", kind := ProfileKind.run,
     handler := ProfileHandler.boundRunHandler hasWatcher, isDefault := true },
   { label := "Debug Tests", kind := ProfileKind.debug,
     handler := ProfileHandler.boundDebugHandler, isDefault := true }]

/-- The host inputs read during activation: workspace folders (by fsPath),
the enable setting, the result of isVitestEnv on the first folder, the
result of getVitestCommand, the result of the getVitestVersion probe, the
result of isNodeAvailable, the commandLine setting, the PATH and nodeEnv
strings interpolated into log lines, and the documents of the visible
text editors. -/
structure Env where
  workspaceFolders : List String
  enable : Bool
  vitestEnvFirstFolder : Bool
  vitestCommand : Option Cmd
  probe : Except String Version
  nodeAvailable : Bool
  commandLine : Option String
  pathEnv : String
  nodeEnvJson : String
  visibleDocs : List String

/-- The hint appended to the shown error message when no node process can be
spawned (extension.ts line 65). -/
def nodeHint : String :=
  "Cannot spawn node process. Please try setting vitest.nodeEnv as \x7b\"PATH\": \"/path/to/node\"\x7d in your settings."

/-- The vitestVersion binding after the catch at extension.ts lines 58-69:
the probed version on success, undefined on rejection. -/
def probedVersion (env : Env) : Option Version :=
  match env.probe with
  | Except.ok v => some v
  | Except.error _ => none

/-- The lines appended to the Vitest output channel by the catch handler at
extension.ts lines 58-66; empty when the probe succeeds. -/
def probeLogLines (env : Env) : List String :=
  match env.probe with
  | Except.ok _ => []
  | Except.error e =>
    [e, "process.env.PATH = " ++ env.pathEnv,
     "vitest.nodeEnv = " ++ env.nodeEnvJson]
      ++ (if env.nodeAvailable then [] else ["Cannot spawn node process"])

/-- The error messages shown by the catch handler at extension.ts lines
62-68: the error, with the node hint appended when node is unavailable. -/
def probeErrorMessages (env : Env) : List String :=
  match env.probe with
  | Except.ok _ => []
  | Except.error e =>
    [e ++ (if env.nodeAvailable then "" else nodeHint)]

/-- The condition at extension.ts line 74: the probed version exists and is
at least 0.8.0, or a custom command line is configured (truthy). -/
def featureEnabled (env : Env) : Bool :=
  (match probedVersion env with
   | some v => semverGte080 v
   | none => false) || optStrTruthy env.commandLine

/-- The two early-return guards at extension.ts lines 16-26 pass: the
workspace has folders, and the extension is enabled or the first folder is
a Vitest environment. -/
def activateGuardsPass (env : Env) : Bool :=
  !env.workspaceFolders.isEmpty && (env.enable || env.vitestEnvFirstFolder)

/-- The warning shown when the feature condition fails (extension.ts line
90). -/
def disabledMsg : String :=
  "Because Vitest version < 0.8.0, run/debug/watch tests from Vitest extension disabled.\n"

/-- The onDidOpenTextDocument listener at extension.ts lines 116-118:
discover tests from the opened document. -/
def onDidOpenTextDocumentListener (doc : String) : List Call :=
  [Call.discoverTestFromDoc doc]

/-- The onDidChangeTextDocument listener at extension.ts lines 119-121:
discover tests from the changed document. -/
def onDidChangeTextDocumentListener (doc : String) : List Call :=
  [Call.discoverTestFromDoc doc]

/-- The observable outcome of activate: what was created, registered and
shown. -/
structure ActivationResult where
  activated : Bool
  controllerCreated : Bool
  refreshHandlerSet : Bool
  resolveHandlerSet : Bool
  probed : Bool
  vitestVersion : Option Version
  logLines : List String
  errorMessages : List String
  warningMessages : List String
  commands : List RegisteredCommand
  profiles : List RunProfile
  watcherCreated : Bool
  watchCmd : Option Cmd
  statusBarCreated : Bool
  discoveredDuringActivation : List String
  docOpenListener : Bool
  docChangeListener : Bool
deriving DecidableEq, Repr

/-- The result of an activate call that returned at one of the early guards:
nothing was created or registered. -/
def ActivationResult.empty : ActivationResult :=
  { activated := false, controllerCreated := false, refreshHandlerSet := false,
    resolveHandlerSet := false, probed := false, vitestVersion := none,
    logLines := [], errorMessages := [], warningMessages := [],
    commands := [], profiles := [], watcherCreated := false, watchCmd := none,
    statusBarCreated := false, discoveredDuringActivation := [],
    docOpenListener := false, docChangeListener := false }

/-- The body of activate past the guards (extension.ts lines 28-122):
create the controller and handlers, default the vitest command, probe the
version, then either register the watch/run/debug machinery and the
UpdateSnapshot command, or register warning-only ToggleWatching and
UpdateSnapshot commands and show the warning; finally discover tests from
every visible editor and wire the document listeners. -/
def activateBody (env : Env) : ActivationResult :=
  let vitestCmd := env.vitestCommand.getD npxVitest
  if featureEnabled env then
    let wr := registerWatchHandler (some vitestCmd)
    { activated := true, controllerCreated := true, refreshHandlerSet := true,
      resolveHandlerSet := true, probed := true,
      vitestVersion := probedVersion env,
      logLines := probeLogLines env, errorMessages := probeErrorMessages env,
      warningMessages := [],
      commands := wr.commands
        ++ [{ id := Command.updateSnapshot, action := CmdAction.updateSnapshot }],
      profiles := wr.profiles ++ registerRunHandler wr.watcherCreated,
      watcherCreated := wr.watcherCreated, watchCmd := wr.watchCmd,
      statusBarCreated := wr.statusBarCreated,
      discoveredDuringActivation := env.visibleDocs,
      docOpenListener := true, docChangeListener := true }
  else
    { activated := true, controllerCreated := true, refreshHandlerSet := true,
      resolveHandlerSet := true, probed := true,
      vitestVersion := probedVersion env,
      logLines := probeLogLines env, errorMessages := probeErrorMessages env,
      warningMessages := [disabledMsg],
      commands :=
        [{ id := Command.toggleWatching, action := CmdAction.showWarning disabledMsg },
         { id := Command.updateSnapshot, action := CmdAction.showWarning disabledMsg }],
      profiles := [],
      watcherCreated := false, watchCmd := none, statusBarCreated := false,
      discoveredDuringActivation := env.visibleDocs,
      docOpenListener := true, docChangeListener := true }

/-- activate (extension.ts lines 15-123): return at once when the workspace
has no folders, or when the extension is not enabled and the first folder
is not a Vitest environment; otherwise run the body. -/
def activate (env : Env) : ActivationResult :=
  if env.workspaceFolders.isEmpty then
    ActivationResult.empty
  else if !env.enable && !env.vitestEnvFirstFolder then
    ActivationResult.empty
  else
    activateBody env

/-- An external stimulus the activated extension can react to: an editor
document event, a command invocation, a controller refresh/resolve/run
request, or a change of the watcher's reactive state. -/
inductive Trigger
  | docOpened (doc : String)
  | docChanged (doc : String)
  | command (c : Command)
  | refresh
  | resolve (item : Option TestItem)
  | runRequest (profileIdx : Nat) (req : TestRunRequest)
  | stateChanged (s : WatcherState)
deriving DecidableEq, Repr

/-- Whether activation registered a handler for the trigger: a listener for
the document event, a callback for the command, the refresh/resolve
handler, a profile at the index, or the status-bar effect. -/
def triggerRegistered (res : ActivationResult) : Trigger → Bool
  | Trigger.docOpened _ => res.docOpenListener
  | Trigger.docChanged _ => res.docChangeListener
  | Trigger.command c => (res.commands.find? (fun rc => rc.id == c)).isSome
  | Trigger.refresh => res.refreshHandlerSet
  | Trigger.resolve _ => res.resolveHandlerSet
  | Trigger.runRequest i _ => res.profiles[i]?.isSome
  | Trigger.stateChanged _ => res.statusBarCreated

/-- The calls the activated extension makes in reaction to a trigger: each
trigger is dispatched to the handler activation registered for it, and to
nothing otherwise. -/
def react (res : ActivationResult) (folders : List String) (t : Trigger) : List Call :=
  if res.activated then
    match t with
    | Trigger.docOpened d =>
      if res.docOpenListener then onDidOpenTextDocumentListener d else []
    | Trigger.docChanged d =>
      if res.docChangeListener then onDidChangeTextDocumentListener d else []
    | Trigger.command c =>
      match res.commands.find? (fun rc => rc.id == c) with
      | some rc => cmdActionCalls rc.action
      | none => []
    | Trigger.refresh =>
      if res.refreshHandlerSet then refreshHandler else []
    | Trigger.resolve item =>
      if res.resolveHandlerSet then resolveHandler item else []
    | Trigger.runRequest i req =>
      match res.profiles[i]? with
      | some p => runProfileSemantics p.handler folders req
      | none => []
    | Trigger.stateChanged s =>
      if res.statusBarCreated then [Call.statusBarUpdate (statusBarEffect s)] else []
  else
    []

/-- A sample environment in which both guards pass and the probed version is
at least 0.8.0. -/
def envSample : Env :=
  { workspaceFolders := ["/home/user/project"], enable := true,
    vitestEnvFirstFolder := true,
    vitestCommand := some { cmd := "node", args := ["node_modules/.bin/vitest"] },
    probe := Except.ok { major := 0, minor := 12, patch := 3 },
    nodeAvailable := true, commandLine := none, pathEnv := "/usr/bin",
    nodeEnvJson := "null", visibleDocs := ["a.test.ts", "b.ts"] }

/-- A sample environment in which both guards pass but the version probe
rejects and node is unavailable. -/
def envErrSample : Env :=
  { workspaceFolders := ["/home/user/project"], enable := true,
    vitestEnvFirstFolder := true, vitestCommand := none,
    probe := Except.error "Error: spawn npx ENOENT",
    nodeAvailable := false, commandLine := none, pathEnv := "/usr/bin",
    nodeEnvJson := "null", visibleDocs := [] }

/-- Helper: when both guards pass, activate runs its body. -/
theorem activate_eq_body (env : Env) (hg : activateGuardsPass env = true) :
    activate env = activateBody env := by
  unfold activateGuardsPass at hg
  unfold activate
  cases h1 : env.workspaceFolders.isEmpty <;>
    cases h2 : env.enable <;>
      cases h3 : env.vitestEnvFirstFolder <;>
        simp_all

/-- Claim C1: when both guards pass, if the probed version is at least 0.8.0
or a custom command line is configured, activation registers the watch
machinery (start/stop/toggle watching commands, the watch-mode profile),
the default run and debug profiles, and the UpdateSnapshot command;
otherwise it registers only warning-showing ToggleWatching and
UpdateSnapshot commands, creates no profile, and shows the warning. -/
theorem activate_conditional_registration (env : Env)
    (hg : activateGuardsPass env = true) :
    (featureEnabled env = true →
      (activate env).commands =
        [{ id := Command.startWatching, action := CmdAction.startWatching },
         { id := Command.stopWatching, action := CmdAction.stopWatching },
         { id := Command.toggleWatching, action := CmdAction.toggleWatching },
         { id := Command.updateSnapshot, action := CmdAction.updateSnapshot }] ∧
      (activate env).profiles =
        [{ label := "Run Tests (Watch Mode)", kind := ProfileKind.run,
           handler := ProfileHandler.watchRunHandler, isDefault := false },
         { label := "Run Tests", kind := ProfileKind.run,
           handler := ProfileHandler.boundRunHandler true, isDefault := true },
         { label := "Debug Tests", kind := ProfileKind.debug,
           handler := ProfileHandler.boundDebugHandler, isDefault := true }]) ∧
    (featureEnabled env = false →
      (activate env).commands =
        [{ id := Command.toggleWatching, action := CmdAction.showWarning disabledMsg },
         { id := Command.updateSnapshot, action := CmdAction.showWarning disabledMsg }] ∧
      (activate env).profiles = [] ∧
      (activate env).warningMessages = [disabledMsg]) := by
  rw [activate_eq_body env hg]
  constructor
  · intro hf
    simp [activateBody, hf, registerWatchHandler, registerRunHandler]
  · intro hf
    simp [activateBody, hf]

/-- Witness for C1 at a concrete environment with a 0.12.3 probe. -/
theorem activate_conditional_registration_witness :
    (activate envSample).commands =
      [{ id := Command.startWatching, action := CmdAction.startWatching },
       { id := Command.stopWatching, action := CmdAction.stopWatching },
       { id := Command.toggleWatching, action := CmdAction.toggleWatching },
       { id := Command.updateSnapshot, action := CmdAction.updateSnapshot }] ∧
    (activate envSample).profiles =
      [{ label := "Run Tests (Watch Mode)", kind := ProfileKind.run,
         handler := ProfileHandler.watchRunHandler, isDefault := false },
       { label := "Run Tests", kind := ProfileKind.run,
         handler := ProfileHandler.boundRunHandler true, isDefault := true },
       { label := "Debug Tests", kind := ProfileKind.debug,
         handler := ProfileHandler.boundDebugHandler, isDefault := true }] :=
  (activate_conditional_registration envSample (by decide)).1 (by decide)

/-- Claim C2: the status-bar mode is a pure function of the watcher's state
with a fixed priority: running mode when isRunning, else watch mode
rendering testStatus when isWatching, else default mode. -/
theorem status_bar_mode_of_state (s : WatcherState) :
    (s.isRunning = true → statusBarEffect s = StatusBarMode.runningMode) ∧
    (s.isRunning = false → s.isWatching = true →
      statusBarEffect s = StatusBarMode.watchMode s.testStatus) ∧
    (s.isRunning = false → s.isWatching = false →
      statusBarEffect s = StatusBarMode.defaultMode) := by
  refine ⟨fun h => ?_, fun h1 h2 => ?_, fun h1 h2 => ?_⟩ <;>
    simp_all [statusBarEffect]

/-- Witness for C2 at the three concrete watcher states. -/
theorem status_bar_mode_of_state_witness :
    statusBarEffect { isRunning := true, isWatching := true, testStatus := "1 passed" }
      = StatusBarMode.runningMode ∧
    statusBarEffect { isRunning := false, isWatching := true, testStatus := "1 passed" }
      = StatusBarMode.watchMode "1 passed" ∧
    statusBarEffect { isRunning := false, isWatching := false, testStatus := "" }
      = StatusBarMode.defaultMode :=
  ⟨(status_bar_mode_of_state _).1 rfl,
   (status_bar_mode_of_state _).2.1 rfl rfl,
   (status_bar_mode_of_state _).2.2 rfl rfl⟩

/-- Claim C9: activate is a no-op when the workspace has no folders, or when
the extension is not enabled and the first folder is not a Vitest
environment: no controller, no probe, no command, no profile, no
listener. -/
theorem activate_noop_on_failed_preconditions (env : Env)
    (hg : env.workspaceFolders = [] ∨
      (env.enable = false ∧ env.vitestEnvFirstFolder = false)) :
    activate env = ActivationResult.empty ∧
    (activate env).controllerCreated = false ∧
    (activate env).probed = false ∧
    (activate env).commands = [] ∧
    (activate env).profiles = [] ∧
    (activate env).docOpenListener = false ∧
    (activate env).docChangeListener = false := by
  have h : activate env = ActivationResult.empty := by
    unfold activate
    rcases hg with h | ⟨h1, h2⟩
    · simp [h]
    · simp [h1, h2]
  refine ⟨h, ?_, ?_, ?_, ?_, ?_, ?_⟩ <;> rw [h] <;> rfl

/-- Witness for C9 at a concrete folderless environment. -/
theorem activate_noop_on_failed_preconditions_witness :
    activate { envSample with workspaceFolders := [] } = ActivationResult.empty :=
  (activate_noop_on_failed_preconditions _ (Or.inl rfl)).1

/-- Claim C10: from activate, registerWatchHandler is always reached with a
non-null command, so its undefined guard (which would create nothing) is
never taken: under the feature condition a TestWatcher is always created
and its command is the defaulted vitest command, never the stringToCmd
fallback of the configured command line. -/
theorem watch_guard_unreachable_from_activate (env : Env)
    (hg : activateGuardsPass env = true) (hf : featureEnabled env = true) :
    (activate env).watcherCreated = true ∧
    (activate env).watchCmd = some (env.vitestCommand.getD npxVitest) ∧
    registerWatchHandler none =
      { watcherCreated := false, watchCmd := none, statusBarCreated := false,
        commands := [], profiles := [] } := by
  rw [activate_eq_body env hg]
  refine ⟨?_, ?_, rfl⟩ <;> simp [activateBody, hf, registerWatchHandler]

/-- Witness for C10 at a concrete environment with a configured command. -/
theorem watch_guard_unreachable_from_activate_witness :
    (activate envSample).watcherCreated = true ∧
    (activate envSample).watchCmd =
      some { cmd := "node", args := ["node_modules/.bin/vitest"] } :=
  ⟨(watch_guard_unreachable_from_activate envSample (by decide) (by decide)).1,
   (watch_guard_unreachable_from_activate envSample (by decide) (by decide)).2.1⟩

/-- Claim C3: when the version probe rejects, activation does not abort: the
error and diagnostics are appended to the log (with the extra node line
when node cannot be spawned), an error message is shown (with the node
hint appended exactly when node cannot be spawned), and activation
continues with an undefined version, still wiring the controller and the
document listeners. -/
theorem probe_rejection_does_not_abort (env : Env) (e : String)
    (hg : activateGuardsPass env = true) (hp : env.probe = Except.error e) :
    (activate env).vitestVersion = none ∧
    (activate env).logLines =
      [e, "process.env.PATH = " ++ env.pathEnv,
       "vitest.nodeEnv = " ++ env.nodeEnvJson]
        ++ (if env.nodeAvailable then [] else ["Cannot spawn node process"]) ∧
    (activate env).errorMessages =
      [e ++ (if env.nodeAvailable then "" else nodeHint)] ∧
    (activate env).controllerCreated = true ∧
    (activate env).docOpenListener = true ∧
    (activate env).docChangeListener = true := by
  rw [activate_eq_body env hg]
  unfold activateBody
  cases hf : featureEnabled env <;>
    simp [hf, probedVersion, probeLogLines, probeErrorMessages, hp]

/-- Witness for C3 at a concrete environment whose probe rejects with node
unavailable. -/
theorem probe_rejection_does_not_abort_witness :
    (activate envErrSample).vitestVersion = none ∧
    (activate envErrSample).errorMessages =
      ["Error: spawn npx ENOENT" ++ nodeHint] ∧
    (activate envErrSample).controllerCreated = true := by
  have h := probe_rejection_does_not_abort envErrSample "Error: spawn npx ENOENT"
    (by decide) rfl
  exact ⟨h.1, by rw [h.2.2.1]; rfl, h.2.2.2.1⟩

/-- Claim C4: after a successful activation the open and change document
listeners are installed and each invokes discoverTestFromDoc with the
event's document, and every visible editor's document was passed to
discoverTestFromDoc once during activation. -/
theorem activation_wires_discoverer (env : Env)
    (hg : activateGuardsPass env = true) :
    (activate env).docOpenListener = true ∧
    (activate env).docChangeListener = true ∧
    (∀ d, onDidOpenTextDocumentListener d = [Call.discoverTestFromDoc d]) ∧
    (∀ d, onDidChangeTextDocumentListener d = [Call.discoverTestFromDoc d]) ∧
    (activate env).discoveredDuringActivation = env.visibleDocs := by
  rw [activate_eq_body env hg]
  unfold activateBody
  cases hf : featureEnabled env <;>
    simp [hf, onDidOpenTextDocumentListener, onDidChangeTextDocumentListener]

/-- Witness for C4 at a concrete environment with two visible editors. -/
theorem activation_wires_discoverer_witness :
    (activate envSample).docOpenListener = true ∧
    (activate envSample).discoveredDuringActivation = ["a.test.ts", "b.ts"] :=
  ⟨(activation_wires_discoverer envSample (by decide)).1,
   (activation_wires_discoverer envSample (by decide)).2.2.2.2⟩

/-- Claim C5: the refresh handler discovers all test files in the workspace;
the resolve handler with no item discovers and watches all test files,
with an item whose data is a TestFile updates that file from disk, and
does nothing in every other item case. -/
theorem refresh_resolve_handlers :
    refreshHandler = [Call.discoverAllTestFilesInWorkspace] ∧
    resolveHandler none = [Call.watchAllTestFilesInWorkspace] ∧
    (∀ it : TestItem, it.data = some TestData.file →
      resolveHandler (some it) = [Call.updateFromDisk]) ∧
    (∀ it : TestItem, it.data ≠ some TestData.file →
      resolveHandler (some it) = []) := by
  refine ⟨rfl, rfl, fun it h => ?_, fun it h => ?_⟩
  · simp [resolveHandler, h]
  · match hd : it.data with
    | none => simp [resolveHandler, hd]
    | some TestData.file => exact absurd hd h
    | some TestData.describe => simp [resolveHandler, hd]
    | some TestData.testCase => simp [resolveHandler, hd]

/-- Witness for C5 at concrete items: a TestFile item, a non-file item and
the no-item case. -/
theorem refresh_resolve_handlers_witness :
    resolveHandler none = [Call.watchAllTestFilesInWorkspace] ∧
    resolveHandler (some { data := some TestData.file }) = [Call.updateFromDisk] ∧
    resolveHandler (some { data := some TestData.describe }) = [] :=
  ⟨refresh_resolve_handlers.2.1,
   refresh_resolve_handlers.2.2.1 _ rfl,
   refresh_resolve_handlers.2.2.2 _ (by decide)⟩

/-- Claim C6: the watch-mode run handler, given at least one workspace
folder, first awaits the watcher's watch() and then calls runTests with
the request's included tests; with no workspace folder it returns without
starting anything.  The watch-mode profile dispatches to this handler. -/
theorem watch_profile_run_handler (folders : List String) (req : TestRunRequest) :
    (folders ≠ [] →
      runHandler folders req =
        [Call.watcherWatch, Call.watcherRunTests req.included]) ∧
    (folders = [] → runHandler folders req = []) ∧
    runProfileSemantics ProfileHandler.watchRunHandler folders req =
      runHandler folders req := by
  refine ⟨fun h => ?_, fun h => ?_, rfl⟩
  · simp [runHandler, h]
  · simp [runHandler, h]

/-- Witness for C6 at a concrete request with one folder and with none. -/
theorem watch_profile_run_handler_witness :
    runHandler ["/home/user/project"] { included := some ["suite A"] } =
      [Call.watcherWatch, Call.watcherRunTests (some ["suite A"])] ∧
    runHandler [] { included := none } = [] :=
  ⟨(watch_profile_run_handler _ _).1 (by decide),
   (watch_profile_run_handler _ _).2.1 rfl⟩

/-- Claim C7: registerRunHandler creates exactly two default profiles: the
Run profile dispatching to the one-shot run handler bound to the
controller and watcher, and the Debug profile dispatching to the one-shot
debug handler bound to the controller. -/
theorem register_run_handler_profiles (w : Bool) (folders : List String)
    (req : TestRunRequest) :
    registerRunHandler w =
      [{ label := "Run Tests", kind := ProfileKind.run,
         handler := ProfileHandler.boundRunHandler w, isDefault := true },
       { label := "Debug Tests", kind := ProfileKind.debug,
         handler := ProfileHandler.boundDebugHandler, isDefault := true }] ∧
    runProfileSemantics (ProfileHandler.boundRunHandler w) folders req =
      [Call.oneShotRun req.included] ∧
    runProfileSemantics ProfileHandler.boundDebugHandler folders req =
      [Call.oneShotDebug] :=
  ⟨rfl, rfl, rfl⟩

/-- Claim C8: the activated extension is purely reactive: whenever a trigger
produces any call into a component, activation succeeded and had
registered a handler for exactly that trigger (listener, command,
refresh/resolve handler, run profile, or the status-bar effect); a
never-activated or unregistered trigger produces nothing. -/
theorem react_only_to_registered_triggers (res : ActivationResult)
    (folders : List String) (t : Trigger)
    (h : react res folders t ≠ []) :
    res.activated = true ∧ triggerRegistered res t = true := by
  unfold react at h
  cases ha : res.activated with
  | false => simp [ha] at h
  | true =>
    refine ⟨rfl, ?_⟩
    simp only [ha, if_true] at h
    cases t with
    | docOpened d =>
      unfold triggerRegistered
      cases hl : res.docOpenListener <;> simp_all
    | docChanged d =>
      unfold triggerRegistered
      cases hl : res.docChangeListener <;> simp_all
    | command c =>
      unfold triggerRegistered
      cases hf : res.commands.find? (fun rc => rc.id == c) <;> simp_all
    | refresh =>
      unfold triggerRegistered
      cases hl : res.refreshHandlerSet <;> simp_all
    | resolve item =>
      unfold triggerRegistered
      cases hl : res.resolveHandlerSet <;> simp_all
    | runRequest i req =>
      unfold triggerRegistered
      cases hf : res.profiles[i]?
      · simp [hf] at h
      · simp [hf]
    | stateChanged s =>
      unfold triggerRegistered
      cases hl : res.statusBarCreated <;> simp_all

/-- Witness for C8: a refresh request on a concretely activated extension
produces calls, so the refresh handler must have been registered. -/
theorem react_only_to_registered_triggers_witness :
    (activate envSample).activated = true ∧
    triggerRegistered (activate envSample) Trigger.refresh = true :=
  react_only_to_registered_triggers (activate envSample)
    ["/home/user/project"] Trigger.refresh (by decide)

end VitestExt
